import Mathlib

/-!
Shallow embedding of the Excel-Analytics backend (Excel-Visualizer) in Lean 4.

The embedding covers:
* `backend/utils/excelParser.js` — cell conversion, sheet parsing, column
  analysis, file validation (`ExcelParser`);
* `backend/routes/files.js` — upload, fetch, delete and reprocess routes;
* `backend/routes/charts.js` — chart creation and `generateChartData`;
* the admin file-delete route and the multer upload middleware.

JavaScript runtime values are modelled by the inductive type `Cell`
(`undefined`, `null`, strings, numbers as rationals, booleans, and `Date`
values as calendar triples).  The JS built-ins used by the parser
(`isNaN`/`Number` coercion, `parseFloat`, `String.prototype.trim`,
`Date.parse` on the four date patterns the code tests) are embedded as
executable Lean functions over lists of characters; they model the
built-ins on the decimal/hex literal grammar (the engine-specific corners
such as `Infinity` literals and binary/octal prefixes are out of scope, no
claim depends on them).  MongoDB persistence is modelled by an explicit
`Store` of file and chart records, and each Express route handler becomes a
function from the store (plus request data) to a new store and an HTTP
status code.  Exceptions are modelled with `Except`; functions whose JS
counterparts catch all exceptions (such as `validateExcelFile`) get a plain,
total return type.
-/

/-- A JavaScript runtime value as it appears in a parsed spreadsheet cell:
`undefined`, `null`, a string, a number (modelled as a rational), a boolean,
or a `Date` (modelled by its calendar components year/month/day). -/
inductive Cell where
  | undef : Cell
  | null : Cell
  | str : String → Cell
  | num : ℚ → Cell
  | bool : Bool → Cell
  | date : Nat → Nat → Nat → Cell
  deriving DecidableEq, Repr

/-- Whitespace characters trimmed by `String.prototype.trim` (the common
ASCII ones: space, tab, newline, carriage return). -/
def isWSChar (c : Char) : Bool :=
  c = ' ' || c = '\t' || c = '\n' || c = '\r'

/-- Drop leading whitespace from a character list. -/
def dropLeadWS (l : List Char) : List Char := l.dropWhile isWSChar

/-- Drop trailing whitespace from a character list. -/
def dropTrailWS (l : List Char) : List Char :=
  (l.reverse.dropWhile isWSChar).reverse

/-- Model of `String.prototype.trim`. -/
def jsTrim (s : String) : String :=
  String.mk (dropTrailWS (dropLeadWS s.data))

/-- Numeric value of a list of decimal digit characters. -/
def digitsVal (l : List Char) : Nat :=
  l.foldl (fun a c => a * 10 + (c.toNat - 48)) 0

/-- Split a character list into its maximal leading run of decimal digits
and the rest. -/
def spanDigits (l : List Char) : List Char × List Char :=
  (l.takeWhile Char.isDigit, l.dropWhile Char.isDigit)

/-- Parse an unsigned decimal literal `digits [. digits]` (at least one
digit overall) from the front of a character list.  Returns the mantissa
(all digits read as one integer), the number of fractional digits, and the
unconsumed rest; the value denoted is `mantissa / 10 ^ fracLen`. -/
def parseUnsigned (l : List Char) : Option (Nat × Nat × List Char) :=
  let ip := (spanDigits l).1
  let r1 := (spanDigits l).2
  match r1 with
  | '.' :: r2 =>
    let fp := (spanDigits r2).1
    let r3 := (spanDigits r2).2
    if ip = [] ∧ fp = [] then none
    else some (digitsVal (ip ++ fp), fp.length, r3)
  | _ => if ip = [] then none else some (digitsVal ip, 0, r1)

/-- Parse an optional exponent part `[eE] [+-]? digits` from the front of a
character list; when absent or malformed nothing is consumed and the
exponent is `0` (this mirrors `parseFloat`, which backs off an `e` not
followed by digits). -/
def parseExpPart (l : List Char) : Int × List Char :=
  match l with
  | c :: r =>
    if c = 'e' ∨ c = 'E' then
      match r with
      | s :: r2 =>
        if s = '+' ∨ s = '-' then
          let d := (spanDigits r2).1
          let r3 := (spanDigits r2).2
          if d = [] then (0, l)
          else (if s = '-' then -(digitsVal d : Int) else (digitsVal d : Int), r3)
        else
          let d := (spanDigits r).1
          let r2' := (spanDigits r).2
          if d = [] then (0, l) else ((digitsVal d : Int), r2')
      | [] => (0, l)
    else (0, l)
  | [] => (0, l)

/-- The rational `m * 10 ^ e` for an integer mantissa `m` and integer
exponent `e`, built with `mkRat` so that it evaluates by kernel reduction
(the generic rational `+`, `*`, `^` do not). -/
def scaled10 (m : Int) (e : Int) : ℚ :=
  if 0 ≤ e then mkRat (m * ((10 ^ e.toNat : Nat) : Int)) 1
  else mkRat m (10 ^ (-e).toNat)

/-- Parse a signed decimal literal with optional exponent from the front of
a character list: `[+-]? (digits [. digits] | . digits) [exp]`.  Returns
the value and the unconsumed rest. -/
def jsNumParse (l : List Char) : Option (ℚ × List Char) :=
  let sgn : Bool × List Char :=
    match l with
    | '-' :: r => (true, r)
    | '+' :: r => (false, r)
    | _ => (false, l)
  match parseUnsigned sgn.2 with
  | none => none
  | some (m, f, r1) =>
    let e := (parseExpPart r1).1
    let r2 := (parseExpPart r1).2
    let mant : Int := if sgn.1 then -(m : Int) else (m : Int)
    some (scaled10 mant (e - (f : Int)), r2)

/-- Is `c` a hexadecimal digit? -/
def isHexDigitChar (c : Char) : Bool :=
  c.isDigit || ('a' ≤ c ∧ c ≤ 'f') || ('A' ≤ c ∧ c ≤ 'F')

/-- A hexadecimal integer literal `0x…`/`0X…` (accepted by the JS
`Number` coercion). -/
def isHexLiteral (l : List Char) : Bool :=
  match l with
  | c0 :: x :: r => c0 = '0' ∧ (x = 'x' ∨ x = 'X') ∧ r ≠ [] ∧ r.all isHexDigitChar
  | _ => false

/-- Model of the JavaScript test `!isNaN(s)` for a string `s`, i.e. whether
the `Number(s)` coercion yields a non-NaN value: after trimming, the string
must be empty (`Number('') = 0`), a hexadecimal literal `0x…`, or a full
signed decimal literal with optional exponent followed only by whitespace. -/
def jsStringIsNumeric (s : String) : Bool :=
  let t := dropLeadWS s.data
  if t = [] then true
  else if isHexLiteral t then true
  else
    match jsNumParse t with
    | some (_, rest) => rest.all isWSChar
    | none => false

/-- Model of `parseFloat(s)`: skip leading whitespace, parse the longest
decimal-literal prefix; `none` models NaN. -/
def jsParseFloat (s : String) : Option ℚ :=
  match jsNumParse (dropLeadWS s.data) with
  | some (q, _) => some q
  | none => none

/-- A year is a leap year (Gregorian rule). -/
def isLeapYear (y : Nat) : Bool :=
  y % 4 = 0 ∧ (y % 100 ≠ 0 ∨ y % 400 = 0)

/-- Number of days in month `m` of year `y` (months 1–12). -/
def daysInMonth (m y : Nat) : Nat :=
  if m = 2 then (if isLeapYear y then 29 else 28)
  else if m = 4 ∨ m = 6 ∨ m = 9 ∨ m = 11 then 30
  else 31

/-- Does the character list have shape `d{1,2} sep d{1,2} sep d{4}`?  Used
for the `MM/DD/YYYY`, `MM-DD-YYYY` and `MM.DD.YYYY` regular expressions of
`ExcelParser.isDateString`. -/
def matchesMDY (sep : Char) (l : List Char) : Bool :=
  let a := (spanDigits l).1
  match (spanDigits l).2 with
  | c1 :: r2 =>
    if c1 = sep ∧ (a.length = 1 ∨ a.length = 2) then
      let b := (spanDigits r2).1
      match (spanDigits r2).2 with
      | c2 :: r4 =>
        if c2 = sep ∧ (b.length = 1 ∨ b.length = 2) then
          (spanDigits r4).1.length = 4 ∧ (spanDigits r4).2 = []
        else false
      | [] => false
    else false
  | [] => false

/-- Does the character list have shape `d{4} - d{1,2} - d{1,2}` (anchored)?
This is the `YYYY-MM-DD` regular expression of `ExcelParser.isDateString`. -/
def matchesYMD (l : List Char) : Bool :=
  let a := (spanDigits l).1
  match (spanDigits l).2 with
  | '-' :: r2 =>
    if a.length = 4 then
      let b := (spanDigits r2).1
      match (spanDigits r2).2 with
      | '-' :: r4 =>
        if b.length = 1 ∨ b.length = 2 then
          ((spanDigits r4).1.length = 1 ∨ (spanDigits r4).1.length = 2) ∧
            (spanDigits r4).2 = []
        else false
      | _ => false
    else false
  | _ => false

/-- The four date regular expressions of `ExcelParser.isDateString`
(`MM/DD/YYYY`, `YYYY-MM-DD`, `MM-DD-YYYY`, `MM.DD.YYYY`), as the JS code
tests them with `datePatterns.some`. -/
def matchesAnyDatePattern (s : String) : Bool :=
  matchesMDY '/' s.data || matchesYMD s.data ||
    matchesMDY '-' s.data || matchesMDY '.' s.data

/-- Model of `Date.parse` restricted to the strings the parser feeds it:
for one of the four supported shapes, extract the calendar components and
accept them (returning year/month/day) exactly when the month is 1–12 and
the day fits the month; every other string is rejected (`none` models NaN).
Only acceptance and the extracted components matter to the program; the
numeric epoch value of the date is never consumed. -/
def jsDateParse (s : String) : Option (Nat × Nat × Nat) :=
  let l := s.data
  let check : Nat → Nat → Nat → Option (Nat × Nat × Nat) := fun y m d =>
    if 1 ≤ m ∧ m ≤ 12 ∧ 1 ≤ d ∧ d ≤ daysInMonth m y then some (y, m, d) else none
  if matchesYMD l then
    let y := digitsVal (spanDigits l).1
    let r2 := ((spanDigits l).2).drop 1
    let m := digitsVal (spanDigits r2).1
    let r4 := ((spanDigits r2).2).drop 1
    check y m (digitsVal (spanDigits r4).1)
  else if matchesMDY '/' l ∨ matchesMDY '-' l ∨ matchesMDY '.' l then
    let m := digitsVal (spanDigits l).1
    let r2 := ((spanDigits l).2).drop 1
    let d := digitsVal (spanDigits r2).1
    let r4 := ((spanDigits r2).2).drop 1
    check (digitsVal (spanDigits r4).1) m d
  else none

/-- `ExcelParser.isDateString`: the string matches one of the four date
patterns and `Date.parse` accepts it. -/
def isDateString (s : String) : Bool :=
  matchesAnyDatePattern s && (jsDateParse s).isSome

/-- The cell-conversion step of `ExcelParser.parseExcelFile` (lines 62–78):
for a non-null/undefined cell, a string that passes `!isNaN(cellValue) &&
cellValue.trim() !== ''` is replaced by its `parseFloat` value (when that is
not NaN), and a cell that is *still* a string and satisfies `isDateString`
is replaced by `new Date(cellValue)`; every other cell is left unchanged. -/
def convertCell (c : Cell) : Cell :=
  match c with
  | Cell.str s =>
    let c1 :=
      if jsStringIsNumeric s ∧ jsTrim s ≠ "" then
        match jsParseFloat s with
        | some q => Cell.num q
        | none => Cell.str s
      else Cell.str s
    match c1 with
    | Cell.str s1 =>
      if isDateString s1 then
        match jsDateParse s1 with
        | some (y, m, d) => Cell.date y m d
        | none => Cell.str s1
      else Cell.str s1
    | other => other
  | other => other


/-- Rational addition written with `mkRat` (mathematically equal to `+` on
`ℚ`; phrased this way so concrete instances evaluate by kernel reduction).
Models the JS `sum += value` accumulation. -/
def qAdd (a b : ℚ) : ℚ :=
  mkRat (a.num * (b.den : Int) + b.num * (a.den : Int)) (a.den * b.den)

/-- Rational divided by a natural number, via `mkRat`.  Models the JS
`sum / types.number` (only ever used with a positive divisor). -/
def qDivNat (a : ℚ) (n : Nat) : ℚ := mkRat a.num (a.den * n)

/-- Model of JavaScript `String(v)` on a cell.  Spreadsheet headers are in
practice strings or null; the number/date renderings are approximations of
the engine's formatting and no claim depends on them. -/
def cellToString (c : Cell) : String :=
  match c with
  | Cell.str s => s
  | Cell.null => "null"
  | Cell.undef => "undefined"
  | Cell.bool b => if b then "true" else "false"
  | Cell.num q => toString q
  | Cell.date y m d => "Date(" ++ toString y ++ "-" ++ toString m ++ "-" ++ toString d ++ ")"

/-- Header cleaning of `ExcelParser.parseExcelFile` (lines 46–51): an
empty/null/undefined header in position `i` becomes `Column_(i+1)`, any
other header is stringified and trimmed. -/
def cleanHeaders (headers : List Cell) : List String :=
  headers.enum.map fun p =>
    if p.2 = Cell.null ∨ p.2 = Cell.undef ∨ p.2 = Cell.str "" then
      "Column_" ++ toString (p.1 + 1)
    else jsTrim (cellToString p.2)

/-- The row filter of `ExcelParser.parseExcelFile` (line 58): keep a data
row exactly when some cell is neither null, undefined nor the empty
string. -/
def rowNonEmpty (row : List Cell) : Bool :=
  row.any fun c => c ≠ Cell.null ∧ c ≠ Cell.undef ∧ c ≠ Cell.str ""

/-- A parsed row object: an association list from (cleaned) header names to
converted cell values, as built by `ExcelParser.parseExcelFile`. -/
abbrev Row : Type := List (String × Cell)

/-- Reading `row[header]` from a row object: the first binding wins, a
missing key yields `undefined`. -/
def getCell (r : Row) (h : String) : Cell :=
  (((r : List (String × Cell)).find? fun p => p.1 = h).map Prod.snd).getD Cell.undef

/-- Building one row object in `ExcelParser.parseExcelFile` (lines 59–85):
each cleaned header is bound to the converted cell in its column (out of
range reads give `undefined`), and `_rowIndex` is set to the row's position
in the *filtered* row list plus 2. -/
def rowToObject (ch : List String) (row : List Cell) (rowIndex : Nat) : Row :=
  (ch.enum.map fun p => (p.2, convertCell (row.getD p.1 Cell.undef))) ++
    [("_rowIndex", Cell.num (mkRat ((rowIndex : Int) + 2) 1))]

/-- The per-type occurrence counters of `ExcelParser.analyzeColumns`. -/
structure TypeCounts where
  string : Nat
  number : Nat
  date : Nat
  boolean : Nat
  null : Nat
  deriving DecidableEq, Repr

/-- The `statistics` object of `ExcelParser.analyzeColumns`. -/
structure ColStats where
  min : Option ℚ
  max : Option ℚ
  average : ℚ
  sum : ℚ
  deriving DecidableEq, Repr

/-- The per-column analysis record of `ExcelParser.analyzeColumns`. -/
structure ColumnAnalysis where
  dataType : String
  totalValues : Nat
  uniqueValues : Nat
  nullCount : Nat
  typeDistribution : TypeCounts
  isNumeric : Bool
  isDate : Bool
  statistics : Option ColStats
  sampleValues : List Cell
  deriving DecidableEq, Repr

/-- Accumulator of the `values.forEach` loop in
`ExcelParser.analyzeColumns` (lines 215–232): counters, running min, max,
sum, and the insertion-ordered set of values seen. -/
structure ColAcc where
  types : TypeCounts
  minV : Option ℚ
  maxV : Option ℚ
  sumV : ℚ
  uniq : List Cell
  deriving DecidableEq, Repr

/-- One step of the `values.forEach` loop in `ExcelParser.analyzeColumns`:
add the value to the unique set, then bump the counter matching its runtime
type, updating min/max/sum for numbers. -/
def colStep (acc : ColAcc) (v : Cell) : ColAcc :=
  let acc := { acc with uniq := if v ∈ acc.uniq then acc.uniq else acc.uniq ++ [v] }
  match v with
  | Cell.num q =>
    { acc with
      types := { acc.types with number := acc.types.number + 1 }
      sumV := qAdd acc.sumV q
      minV := match acc.minV with
        | none => some q
        | some m => if q < m then some q else some m
      maxV := match acc.maxV with
        | none => some q
        | some m => if m < q then some q else some m }
  | Cell.date _ _ _ => { acc with types := { acc.types with date := acc.types.date + 1 } }
  | Cell.bool _ => { acc with types := { acc.types with boolean := acc.types.boolean + 1 } }
  | Cell.str _ => { acc with types := { acc.types with string := acc.types.string + 1 } }
  | _ => { acc with types := { acc.types with null := acc.types.null + 1 } }

/-- The `Object.entries(types)` list, in the insertion order of the JS
object literal: string, number, date, boolean, null. -/
def typeEntries (t : TypeCounts) : List (String × Nat) :=
  [("string", t.string), ("number", t.number), ("date", t.date),
   ("boolean", t.boolean), ("null", t.null)]

/-- The primary-type selection of `ExcelParser.analyzeColumns` (line 236):
`typeEntries.reduce((a, b) => types[a[0]] > types[b[0]] ? a : b)[0]` —
a left fold that keeps the accumulator only when its count is strictly
greater, so ties go to the later entry. -/
def primaryType (t : TypeCounts) : String :=
  ((typeEntries t).drop 1 |>.foldl (fun a b => if a.2 > b.2 then a else b)
    ("string", t.string)).1

/-- The non-empty values of one column (`ExcelParser.analyzeColumns`,
line 200): map each row to its cell at the header, dropping null, undefined
and empty-string entries. -/
def columnValues (h : String) (rows : List Row) : List Cell :=
  (rows.map fun r => getCell r h).filter fun v =>
    v ≠ Cell.null ∧ v ≠ Cell.undef ∧ v ≠ Cell.str ""

/-- `ExcelParser.analyzeColumns` for a single header (the body of the
`headers.forEach` loop, lines 199–253). -/
def analyzeColumn (h : String) (rows : List Row) : ColumnAnalysis :=
  let values := columnValues h rows
  let acc := values.foldl colStep ⟨⟨0, 0, 0, 0, 0⟩, none, none, (0 : ℚ), []⟩
  let t := acc.types
  { dataType := primaryType t
    totalValues := values.length
    uniqueValues := acc.uniq.length
    nullCount := rows.length - values.length
    typeDistribution := t
    isNumeric := t.number > t.string ∧ t.number > 0
    isDate := t.date > 0
    statistics :=
      if t.number > 0 then
        some { min := acc.minV, max := acc.maxV,
               average := if values.length > 0 then qDivNat acc.sumV t.number else (0 : ℚ),
               sum := acc.sumV }
      else none
    sampleValues := acc.uniq.take 5 }

/-- `ExcelParser.analyzeColumns`: the analysis object keyed by header. -/
def analyzeColumns (headers : List String) (rows : List Row) :
    List (String × ColumnAnalysis) :=
  headers.map fun h => (h, analyzeColumn h rows)

/-- Metadata produced by `ExcelParser.parseExcelFile` (lines 91–97). -/
structure Metadata where
  sheetNames : List String
  activeSheet : String
  totalSheets : Nat
  fileSize : Nat
  columnAnalysis : List (String × ColumnAnalysis)
  deriving DecidableEq, Repr

/-- The successful result of `ExcelParser.parseExcelFile`
(lines 99–106; the constant `success: true` field is omitted). -/
structure ParsedFile where
  headers : List String
  rows : List Row
  totalRows : Nat
  totalColumns : Nat
  metadata : Metadata
  deriving DecidableEq, Repr

instance : DecidableEq (Except String ParsedFile) := fun a b =>
  match a, b with
  | Except.ok x, Except.ok y =>
    if h : x = y then isTrue (by rw [h]) else isFalse (by simp [h])
  | Except.error x, Except.error y =>
    if h : x = y then isTrue (by rw [h]) else isFalse (by simp [h])
  | Except.ok _, Except.error _ => isFalse (by simp)
  | Except.error _, Except.ok _ => isFalse (by simp)

/-- What the filesystem and the XLSX library can yield for a stored path:
no file at all, a file `XLSX.readFile` throws on, or a readable workbook
with its sheet names and the first sheet's `sheet_to_json` row matrix
(with `header: 1, defval: null, raw: false`). -/
inductive FsFile where
  | missing : FsFile
  | unreadable : Nat → FsFile
  | workbook : Nat → List String → List (List Cell) → FsFile
  deriving DecidableEq, Repr

/-- `fs.statSync(path).size` (0 for a missing file, which the code never
reaches because it checks `fs.existsSync` first). -/
def fsSize : FsFile → Nat
  | FsFile.missing => 0
  | FsFile.unreadable s => s
  | FsFile.workbook s _ _ => s

/-- `ExcelParser.parseExcelFile` (lines 11–112).  Thrown errors become
`Except.error` carrying the wrapped message of the outer catch block. -/
def parseExcelFile (fs : FsFile) : Except String ParsedFile :=
  match fs with
  | FsFile.missing => Except.error "Failed to parse Excel file: File not found"
  | FsFile.unreadable _ => Except.error "Failed to parse Excel file: unreadable workbook"
  | FsFile.workbook size sheetNames jsonData =>
    if sheetNames = [] then
      Except.error "Failed to parse Excel file: No sheets found in the Excel file"
    else if jsonData = [] then
      Except.error "Failed to parse Excel file: The Excel sheet is empty"
    else
      let ch := cleanHeaders (jsonData.headD [])
      let dataRows := jsonData.drop 1
      let processedRows :=
        ((dataRows.filter rowNonEmpty).enum).map fun p => rowToObject ch p.2 p.1
      Except.ok
        { headers := ch
          rows := processedRows
          totalRows := processedRows.length
          totalColumns := ch.length
          metadata :=
            { sheetNames := sheetNames
              activeSheet := sheetNames.headD ""
              totalSheets := sheetNames.length
              fileSize := size
              columnAnalysis := analyzeColumns ch processedRows } }

/-- The object returned by `ExcelParser.validateExcelFile`: `isValid`,
an `error` message on failure, a `sheetCount` on success. -/
structure ValidationResult where
  isValid : Bool
  error : Option String
  sheetCount : Option Nat
  deriving DecidableEq, Repr

/-- `const maxSize = 10 * 1024 * 1024` of `ExcelParser.validateExcelFile`,
also the default multer `fileSize` limit. -/
def maxSize : Nat := 10 * 1024 * 1024

/-- `ExcelParser.validateExcelFile` (lines 306–330): existence check, size
check, workbook read (a throwing read lands in the catch branch), sheet
check.  The JS function catches every exception, so the model is a plain
total function. -/
def validateExcelFile (fs : FsFile) : ValidationResult :=
  match fs with
  | FsFile.missing => ⟨false, some "File not found", none⟩
  | FsFile.unreadable size =>
    if size > maxSize then ⟨false, some "File size exceeds 10MB limit", none⟩
    else ⟨false, some "Invalid Excel file: unreadable workbook", none⟩
  | FsFile.workbook size sheetNames _ =>
    if size > maxSize then ⟨false, some "File size exceeds 10MB limit", none⟩
    else if sheetNames = [] then ⟨false, some "No sheets found in Excel file", none⟩
    else ⟨true, none, some sheetNames.length⟩

/-- Allowed MIME types of the multer `fileFilter` in
`middleware/upload.js`. -/
def allowedMimes : List String :=
  ["application/vnd.ms-excel",
   "application/vnd.openxmlformats-officedocument.spreadsheetml.sheet"]

/-- Allowed extensions of the multer `fileFilter`. -/
def allowedExtensionList : List String := [".xls", ".xlsx"]

/-- The multer upload middleware of `middleware/upload.js` combined with
`handleMulterError`: `fileExtension` stands for
`path.extname(originalname).toLowerCase()`, the size limit is the default
`10 * 1024 * 1024` (no `MAX_FILE_SIZE` in the environment).  Returns the
400-response message when the file is refused, `none` when it is
accepted. -/
def multerCheck (mimetype fileExtension : String) (size : Nat) : Option String :=
  if ¬ (allowedMimes.contains mimetype ∧ allowedExtensionList.contains fileExtension) then
    some "Only Excel files (.xls, .xlsx) are allowed!"
  else if size > maxSize then some "File too large. Maximum size is 10MB."
  else none

/-- One element of the `data` array built by `generateChartData` in
`routes/charts.js`: a bare y value for 2D charts, an `{x, y, z}` object for
3D charts. -/
inductive DataPoint where
  | d2 : Cell → DataPoint
  | d3 : Cell → Cell → Cell → DataPoint
  deriving DecidableEq, Repr

/-- The single dataset `generateChartData` returns (lines 413–420). -/
structure Dataset where
  label : String
  data : List DataPoint
  backgroundColor : List String
  borderColor : List String
  borderWidth : Nat
  fill : Bool
  deriving DecidableEq, Repr

/-- The value of `generateChartData`: labels plus datasets. -/
structure ChartData where
  labels : List Cell
  datasets : List Dataset
  deriving DecidableEq, Repr

/-- An axis entry of a chart configuration (`config.xAxis` etc.); an empty
`label`/`column` models a missing (falsy) field. -/
structure AxisCfg where
  column : String
  label : String
  deriving DecidableEq, Repr

/-- The `config.colors` object of a chart request. -/
structure ColorsCfg where
  palette : Option (List String)
  deriving DecidableEq, Repr

/-- The chart configuration a request carries (the parts
`generateChartData` reads). -/
structure ChartConfig where
  xAxis : AxisCfg
  yAxis : AxisCfg
  zAxis : Option AxisCfg
  colors : Option ColorsCfg
  deriving DecidableEq, Repr

/-- File processing status (the values `routes/files.js` assigns). -/
inductive FileStatus where
  | processing : FileStatus
  | completed : FileStatus
  | failed : FileStatus
  deriving DecidableEq, Repr

/-- The `processedData` subdocument stored on a file after parsing
(`routes/files.js`, lines 84–89). -/
structure ProcessedData where
  headers : List String
  rows : List Row
  totalRows : Nat
  totalColumns : Nat
  deriving DecidableEq, Repr

/-- A `File` document.  `content` stands for the bytes at `path` on disk
(what `ExcelParser` reads back); ids are naturals. -/
structure FileRec where
  id : Nat
  uploadedBy : Nat
  content : FsFile
  size : Nat
  status : FileStatus
  description : String
  tags : List String
  processedData : Option ProcessedData
  metadata : Option Metadata
  charts : List Nat
  isPublic : Bool
  deriving DecidableEq, Repr

/-- A `Chart` document (the fields the modelled routes touch). -/
structure ChartRec where
  id : Nat
  title : String
  chartType : String
  dimension : String
  fileId : Nat
  createdBy : Nat
  config : ChartConfig
  chartData : ChartData
  deriving DecidableEq, Repr

/-- The MongoDB collections the modelled routes touch. -/
structure Store where
  files : List FileRec
  charts : List ChartRec
  deriving DecidableEq, Repr

/-- `File.findById`: first file with the given id. -/
def findFile (st : Store) (fid : Nat) : Option FileRec :=
  st.files.find? fun f => f.id = fid

/-- `Chart.findById`: first chart with the given id. -/
def findChart (st : Store) (cid : Nat) : Option ChartRec :=
  st.charts.find? fun c => c.id = cid

/-- Mongoose `document.save()`: replace every stored file with this id, or
append the document when the id is new. -/
def saveFile (files : List FileRec) (f : FileRec) : List FileRec :=
  if files.any (fun g => g.id = f.id) then
    files.map fun g => if g.id = f.id then f else g
  else files ++ [f]

/-- Split a character list at commas (accumulator is the current segment,
reversed).  Structural-recursive model of `String.prototype.split(',')`. -/
def splitCommaAux (l : List Char) (cur : List Char) : List String :=
  match l with
  | [] => [String.mk cur.reverse]
  | c :: r =>
    if c = ',' then String.mk cur.reverse :: splitCommaAux r []
    else splitCommaAux r (c :: cur)

/-- Model of the JS `s.split(',')`. -/
def splitComma (s : String) : List String := splitCommaAux s.data []

/-- The tag parsing of the upload route (`routes/files.js`, line 74):
`tags ? tags.split(',').map(trim).filter(nonempty) : []`. -/
def splitTags (tags : String) : List String :=
  if tags = "" then []
  else ((splitComma tags).map jsTrim).filter fun t => t ≠ ""

/-- The express-validator checks on the upload route (lines 19–33):
description at most 500 characters, each comma-separated tag at most 20
characters after trimming. -/
def uploadValidationOk (description tags : String) : Bool :=
  description.length ≤ 500 ∧
    ((splitComma tags).map jsTrim).all fun t => t.length ≤ 20

/-- The JSON body the upload route answers with, flattened: the HTTP status
code plus the file fields it reports (absent fields are `none` for error
responses). -/
structure UploadResponse where
  code : Nat
  fileId : Option Nat
  headers : Option (List String)
  totalRows : Option Nat
  totalColumns : Option Nat
  sheetNames : Option (List String)
  description : Option String
  tags : Option (List String)
  deriving DecidableEq, Repr

/-- `POST /api/files/upload` (`routes/files.js`, lines 15–143), starting
after authentication and multer: express-validator checks, Excel
validation, creation of the `File` record with status `processing`,
parsing, and the final status/response.  `newId` is the id MongoDB assigns
to the new document. -/
def uploadRoute (st : Store) (uid newId : Nat) (content : FsFile) (size : Nat)
    (description tags : String) : Store × UploadResponse :=
  if ¬ uploadValidationOk description tags then
    (st, { code := 400, fileId := none, headers := none, totalRows := none,
           totalColumns := none, sheetNames := none, description := none, tags := none })
  else if (validateExcelFile content).isValid = false then
    (st, { code := 400, fileId := none, headers := none, totalRows := none,
           totalColumns := none, sheetNames := none, description := none, tags := none })
  else
    let fd : FileRec :=
      { id := newId, uploadedBy := uid, content := content, size := size,
        status := FileStatus.processing, description := jsTrim description,
        tags := splitTags tags, processedData := none, metadata := none,
        charts := [], isPublic := false }
    let st1 : Store := { st with files := saveFile st.files fd }
    match parseExcelFile content with
    | Except.error _ =>
      let fd1 := { fd with status := FileStatus.failed }
      ({ st1 with files := saveFile st1.files fd1 },
       { code := 422, fileId := some newId, headers := none, totalRows := none,
         totalColumns := none, sheetNames := none, description := none, tags := none })
    | Except.ok parsed =>
      let fd1 :=
        { fd with
          processedData := some
            { headers := parsed.headers, rows := parsed.rows,
              totalRows := parsed.totalRows, totalColumns := parsed.totalColumns }
          metadata := some parsed.metadata
          status := FileStatus.completed }
      ({ st1 with files := saveFile st1.files fd1 },
       { code := 201, fileId := some newId, headers := some parsed.headers,
         totalRows := some parsed.totalRows, totalColumns := some parsed.totalColumns,
         sheetNames := some parsed.metadata.sheetNames,
         description := some fd1.description, tags := some fd1.tags })

/-- `GET /api/files/:id` (`routes/files.js`, lines 173–200): 404 when the
id is unknown, 403 unless the requester owns the file or is admin,
otherwise the stored document is returned as-is. -/
def getFileRoute (st : Store) (uid : Nat) (role : String) (fid : Nat) :
    Nat × Option FileRec :=
  match findFile st fid with
  | none => (404, none)
  | some f =>
    if f.uploadedBy ≠ uid ∧ role ≠ "admin" then (403, none)
    else (200, some f)

/-- `DELETE /api/files/:id` (`routes/files.js`, lines 347–382): 404 when
unknown, 403 unless owner or admin, otherwise unlink the physical file
(ignoring errors) and `File.findByIdAndDelete` — nothing else. -/
def deleteFileRoute (st : Store) (uid : Nat) (role : String) (fid : Nat) :
    Store × Nat :=
  match findFile st fid with
  | none => (st, 404)
  | some f =>
    if f.uploadedBy ≠ uid ∧ role ≠ "admin" then (st, 403)
    else ({ st with files := st.files.filter fun g => g.id ≠ fid }, 200)

/-- `DELETE /api/admin/files/:id` (admin routes): unlink the physical file,
`Chart.deleteMany({ fileId })`, then `File.findByIdAndDelete`. -/
def adminDeleteFileRoute (st : Store) (fid : Nat) : Store × Nat :=
  match findFile st fid with
  | none => (st, 404)
  | some _ =>
    ({ files := st.files.filter fun g => g.id ≠ fid,
       charts := st.charts.filter fun c => c.fileId ≠ fid }, 200)

/-- `POST /api/files/:id/reprocess` (`routes/files.js`, lines 387–460):
404 when unknown, 403 unless owner, 400 unless the status is `failed`;
otherwise set status `processing`, parse again, and finish with status
`completed` (200) or `failed` (422). -/
def reprocessRoute (st : Store) (uid fid : Nat) : Store × Nat :=
  match findFile st fid with
  | none => (st, 404)
  | some f =>
    if f.uploadedBy ≠ uid then (st, 403)
    else if f.status ≠ FileStatus.failed then (st, 400)
    else
      let f1 := { f with status := FileStatus.processing }
      let st1 : Store := { st with files := saveFile st.files f1 }
      match parseExcelFile f.content with
      | Except.ok parsed =>
        let f2 :=
          { f1 with
            processedData := some
              { headers := parsed.headers, rows := parsed.rows,
                totalRows := parsed.totalRows, totalColumns := parsed.totalColumns }
            metadata := some parsed.metadata
            status := FileStatus.completed }
        ({ st1 with files := saveFile st1.files f2 }, 200)
      | Except.error _ =>
        let f2 := { f1 with status := FileStatus.failed }
        ({ st1 with files := saveFile st1.files f2 }, 422)

/-- The default color palette of `generateColors` in `routes/charts.js`. -/
def defaultPalette : List String :=
  ["#3B82F6", "#EF4444", "#10B981", "#F59E0B", "#8B5CF6",
   "#EC4899", "#06B6D4", "#84CC16", "#F97316", "#6366F1"]

/-- `generateColors(count, colorConfig)` of `routes/charts.js`
(lines 429–445): cycle through `colorConfig?.palette || default`, the
background colors with an appended `80` transparency suffix.  Returns
(background, border). -/
def generateColors (count : Nat) (colorConfig : Option ColorsCfg) :
    List String × List String :=
  let palette := (colorConfig.bind fun c => c.palette).getD defaultPalette
  ((List.range count).map fun i => (palette.getD (i % palette.length) "") ++ "80",
   (List.range count).map fun i => palette.getD (i % palette.length) "")

/-- Is a cell neither `null` nor `undefined` (the row-retention test of
`generateChartData`)? -/
def cellDefined (c : Cell) : Bool :=
  c ≠ Cell.null ∧ c ≠ Cell.undef

/-- One iteration of the `rows.forEach` loop of `generateChartData`
(`routes/charts.js`, lines 382–407), accumulating `(labels, dataPoints)`:
rows with a null/undefined x or y value are skipped; retained rows push
their x value onto `labels`, and push a data point — an `{x,y,z}` object
when `zAxis && zAxis.column` and the z value is defined (nothing is pushed
for an undefined z), a bare y value otherwise. -/
def chartRowStep (config : ChartConfig) (acc : List Cell × List DataPoint)
    (row : Row) : List Cell × List DataPoint :=
  let xValue := getCell row config.xAxis.column
  let yValue := getCell row config.yAxis.column
  if cellDefined xValue ∧ cellDefined yValue then
    let labels := acc.1 ++ [xValue]
    match config.zAxis with
    | some z =>
      if z.column ≠ "" then
        let zValue := getCell row z.column
        if cellDefined zValue then
          (labels, acc.2 ++ [DataPoint.d3 xValue yValue zValue])
        else (labels, acc.2)
      else (labels, acc.2 ++ [DataPoint.d2 yValue])
    | none => (labels, acc.2 ++ [DataPoint.d2 yValue])
  else acc

/-- `generateChartData(fileData, config, chartType)` of `routes/charts.js`
(lines 374–426). -/
def generateChartData (fileData : ProcessedData) (config : ChartConfig)
    (chartType : String) : ChartData :=
  let lp := fileData.rows.foldl (chartRowStep config) ([], [])
  let colors := generateColors lp.2.length config.colors
  { labels := lp.1
    datasets :=
      [{ label := if config.yAxis.label = "" then config.yAxis.column else config.yAxis.label
         data := lp.2
         backgroundColor := colors.1
         borderColor := colors.2
         borderWidth := if chartType = "line" then 2 else 1
         fill := chartType = "area" }] }

/-- The 3D z-axis check of `POST /api/charts` (lines 77–83): a configured,
non-empty z-axis column that is absent from the file's headers. -/
def zAxisColumnMissing (config : ChartConfig) (headers : List String) : Bool :=
  match config.zAxis with
  | some z => z.column ≠ "" ∧ ¬ headers.contains z.column
  | none => false

/-- `POST /api/charts` (`routes/charts.js`, lines 12–153), after
authentication and express-validator: file lookup and access checks,
status check, column checks, `generateChartData`, chart creation, and the
chart-reference push onto the file.  `newChartId` is the id MongoDB
assigns.  Returns the new store and the HTTP status code. -/
def createChartRoute (st : Store) (uid newChartId : Nat) (title chartType dimension : String)
    (fid : Nat) (config : ChartConfig) : Store × Nat :=
  match findFile st fid with
  | none => (st, 404)
  | some file =>
    if file.uploadedBy ≠ uid ∧ file.isPublic = false then (st, 403)
    else if file.status ≠ FileStatus.completed then (st, 400)
    else
      match file.processedData with
      | none => (st, 500)
      | some pd =>
        if ¬ pd.headers.contains config.xAxis.column then (st, 400)
        else if ¬ pd.headers.contains config.yAxis.column then (st, 400)
        else if dimension = "3d" ∧ zAxisColumnMissing config pd.headers then (st, 400)
        else
          let chartData := generateChartData pd config chartType
          let chart : ChartRec :=
            { id := newChartId, title := title, chartType := chartType,
              dimension := dimension, fileId := fid, createdBy := uid,
              config := config, chartData := chartData }
          let st1 : Store := { st with charts := st.charts ++ [chart] }
          let file1 :=
            if file.charts.contains newChartId then file
            else { file with charts := file.charts ++ [newChartId] }
          ({ st1 with files := saveFile st1.files file1 }, 201)

/-- A cell is a JS number. -/
def isNumCell (c : Cell) : Bool :=
  match c with
  | Cell.num _ => true
  | _ => false

/-- Look a type name up in the counters (the JS `types[name]` access). -/
def typeCount (t : TypeCounts) (name : String) : Nat :=
  if name = "string" then t.string
  else if name = "number" then t.number
  else if name = "date" then t.date
  else if name = "boolean" then t.boolean
  else if name = "null" then t.null
  else 0

/-- The largest of the five per-type counters. -/
def maxTypeCount (t : TypeCounts) : Nat :=
  max (max (max (max t.string t.number) t.date) t.boolean) t.null

/-- A cell is a JS string. -/
def isStrCell (c : Cell) : Bool :=
  match c with
  | Cell.str _ => true
  | _ => false

/-- A cell is a JS `Date`. -/
def isDateCell (c : Cell) : Bool :=
  match c with
  | Cell.date _ _ _ => true
  | _ => false

/-- A cell is a JS boolean. -/
def isBoolCell (c : Cell) : Bool :=
  match c with
  | Cell.bool _ => true
  | _ => false

/-- The label a row contributes to a chart (specification-side description
of one `generateChartData` iteration): its x value when both the x and the
y value are defined, nothing otherwise. -/
def chartLabel (config : ChartConfig) (row : Row) : Option Cell :=
  if cellDefined (getCell row config.xAxis.column) ∧
      cellDefined (getCell row config.yAxis.column) then
    some (getCell row config.xAxis.column)
  else none

/-- The data point a row contributes to a chart (specification-side
description of one `generateChartData` iteration): nothing unless x and y
are defined; with an effective z-axis, an `{x,y,z}` point only when z is
also defined; otherwise the bare y value. -/
def chartPoint (config : ChartConfig) (row : Row) : Option DataPoint :=
  if cellDefined (getCell row config.xAxis.column) ∧
      cellDefined (getCell row config.yAxis.column) then
    match config.zAxis with
    | some z =>
      if z.column ≠ "" then
        if cellDefined (getCell row z.column) then
          some (DataPoint.d3 (getCell row config.xAxis.column)
            (getCell row config.yAxis.column) (getCell row z.column))
        else none
      else some (DataPoint.d2 (getCell row config.yAxis.column))
    | none => some (DataPoint.d2 (getCell row config.yAxis.column))
  else none

/-- Concrete processed rows used by the witnesses: one fully defined row,
one row with a null x value. -/
def sampleRows : List Row :=
  [[("x", Cell.num 1), ("y", Cell.num 2)], [("x", Cell.null), ("y", Cell.num 3)]]

/-- Concrete processed data over columns `x`, `y`. -/
def samplePD : ProcessedData := ⟨["x", "y"], sampleRows, 2, 2⟩

/-- A completed file owned by user 7 holding `samplePD`. -/
def sampleCompletedFile : FileRec :=
  ⟨1, 7, FsFile.missing, 0, FileStatus.completed, "", [], some samplePD, none, [], false⟩

/-- A store holding only `sampleCompletedFile`. -/
def sampleStore : Store := ⟨[sampleCompletedFile], []⟩

/-- A 2D chart configuration over `x`/`y` with no z-axis. -/
def sampleCfg : ChartConfig := ⟨⟨"x", ""⟩, ⟨"y", ""⟩, none, none⟩

/-- A workbook whose only sheet is empty (parsing fails). -/
def sampleEmptySheet : FsFile := FsFile.workbook 5 ["S"] []

/-- A small well-formed workbook (parsing succeeds). -/
def sampleGoodWB : FsFile := FsFile.workbook 5 ["S"] [[Cell.str "A"], [Cell.str "x"]]

/-- A failed file whose stored bytes now parse. -/
def sampleFailedFileGood : FileRec :=
  ⟨2, 7, sampleGoodWB, 5, FileStatus.failed, "", [], none, none, [], false⟩

/-- A failed file whose stored bytes still fail to parse. -/
def sampleFailedFileBad : FileRec :=
  ⟨3, 7, sampleEmptySheet, 5, FileStatus.failed, "", [], none, none, [], false⟩

/-- A chart derived from file 1, present in the store. -/
def orphanChart : ChartRec := ⟨9, "t", "bar", "2d", 1, 7, sampleCfg, ⟨[], []⟩⟩

/-- A store with file 1 and a chart whose `fileId` references it. -/
def c1Store : Store := ⟨[sampleCompletedFile], [orphanChart]⟩

theorem foldl_best_spec (l : List (String × Nat)) (init : String × Nat) :
    (l.foldl (fun a b => if a.2 > b.2 then a else b) init = init ∨
      l.foldl (fun a b => if a.2 > b.2 then a else b) init ∈ l) ∧
    init.2 ≤ (l.foldl (fun a b => if a.2 > b.2 then a else b) init).2 ∧
    ∀ b ∈ l, b.2 ≤ (l.foldl (fun a b => if a.2 > b.2 then a else b) init).2 := by
  induction l generalizing init with
  | nil => simp
  | cons c l ih =>
    simp only [List.foldl_cons]
    rcases ih (if init.2 > c.2 then init else c) with ⟨hmem, hinit, hall⟩
    by_cases hc : init.2 > c.2
    · simp only [hc, if_true] at hmem hinit hall ⊢
      refine ⟨?_, hinit, ?_⟩
      · rcases hmem with h | h
        · exact Or.inl h
        · exact Or.inr (List.mem_cons_of_mem _ h)
      · intro b hb
        rcases List.mem_cons.mp hb with rfl | hb
        · omega
        · exact hall b hb
    · simp only [hc, if_false] at hmem hinit hall ⊢
      refine ⟨?_, by omega, ?_⟩
      · rcases hmem with h | h
        · exact Or.inr (by rw [h]; exact List.mem_cons_self c l)
        · exact Or.inr (List.mem_cons_of_mem _ h)
      · intro b hb
        rcases List.mem_cons.mp hb with rfl | hb
        · exact hinit
        · exact hall b hb

theorem primaryType_attains_max (t : TypeCounts) :
    typeCount t (primaryType t) = maxTypeCount t := by
  have H := foldl_best_spec ((typeEntries t).drop 1) ("string", t.string)
  simp only [typeEntries, List.drop_succ_cons, List.drop_zero] at H
  rcases H with ⟨hmem, hinit, hall⟩
  have hn := hall ("number", t.number) (by simp)
  have hd := hall ("date", t.date) (by simp)
  have hb := hall ("boolean", t.boolean) (by simp)
  have hnu := hall ("null", t.null) (by simp)
  simp only [List.mem_cons, List.not_mem_nil, or_false] at hmem
  unfold primaryType typeEntries
  simp only [List.drop_succ_cons, List.drop_zero]
  rcases hmem with h | h | h | h | h <;>
    · rw [h] at hinit hn hd hb hnu ⊢
      try simp [typeCount, maxTypeCount]
      try simp at hinit hn hd hb hnu
      omega

theorem foldl_colStep_number (values : List Cell) (acc : ColAcc) :
    (values.foldl colStep acc).types.number = acc.types.number + values.countP isNumCell := by
  induction values generalizing acc with
  | nil => simp
  | cons v l ih =>
    simp only [List.foldl_cons, List.countP_cons]
    rw [ih]
    cases v <;> simp [colStep, isNumCell] <;> omega

theorem foldl_colStep_counts (values : List Cell) (acc : ColAcc) :
    (values.foldl colStep acc).types.string = acc.types.string + values.countP isStrCell ∧
    (values.foldl colStep acc).types.date = acc.types.date + values.countP isDateCell ∧
    (values.foldl colStep acc).types.boolean = acc.types.boolean + values.countP isBoolCell := by
  induction values generalizing acc with
  | nil => simp
  | cons v l ih =>
    simp only [List.foldl_cons, List.countP_cons]
    rcases ih (colStep acc v) with ⟨h1, h2, h3⟩
    rw [h1, h2, h3]
    cases v <;> simp [colStep, isStrCell, isDateCell, isBoolCell] <;> omega

/-- C2: for every column reported by `analyzeColumns`, the `typeDistribution`
counters are the occurrence counts of each runtime type over the column's
non-empty values, the inferred `dataType` attains the greatest of those
counts (the plurality vote), and the `statistics` object is present exactly
when the column contains at least one numeric value. -/
theorem C2_columnAnalysis_majority_and_stats (headers : List String) (rows : List Row)
    (h : String) (a : ColumnAnalysis)
    (hmem : (h, a) ∈ analyzeColumns headers rows) :
    a.typeDistribution.string = (columnValues h rows).countP isStrCell ∧
    a.typeDistribution.number = (columnValues h rows).countP isNumCell ∧
    a.typeDistribution.date = (columnValues h rows).countP isDateCell ∧
    a.typeDistribution.boolean = (columnValues h rows).countP isBoolCell ∧
    typeCount a.typeDistribution a.dataType = maxTypeCount a.typeDistribution ∧
    (a.statistics.isSome ↔ (columnValues h rows).any isNumCell = true) := by
  unfold analyzeColumns at hmem
  rw [List.mem_map] at hmem
  obtain ⟨h0, hh0, heq⟩ := hmem
  have e1 : h0 = h := congrArg Prod.fst heq
  have e2 : analyzeColumn h0 rows = a := congrArg Prod.snd heq
  rw [← e2, ← e1]
  have hnum : (List.foldl colStep ⟨⟨0, 0, 0, 0, 0⟩, none, none, (0 : ℚ), []⟩
      (columnValues h0 rows)).types.number = (columnValues h0 rows).countP isNumCell := by
    simpa using foldl_colStep_number (columnValues h0 rows)
      ⟨⟨0, 0, 0, 0, 0⟩, none, none, (0 : ℚ), []⟩
  have hcounts := foldl_colStep_counts (columnValues h0 rows)
    ⟨⟨0, 0, 0, 0, 0⟩, none, none, (0 : ℚ), []⟩
  simp only [analyzeColumn]
  refine ⟨?_, ?_, ?_, ?_, ?_, ?_⟩
  · simpa using hcounts.1
  · simpa using hnum
  · simpa using hcounts.2.1
  · simpa using hcounts.2.2
  · exact primaryType_attains_max _
  · rw [hnum]
    by_cases hpos : 0 < (columnValues h0 rows).countP isNumCell
    · have hany : (columnValues h0 rows).any isNumCell = true := by
        rw [List.any_eq_true]
        exact List.countP_pos.mp hpos
      simp [hpos, hany]
    · have hz : (columnValues h0 rows).countP isNumCell = 0 := by omega
      have hany : (columnValues h0 rows).any isNumCell = false := by
        rw [List.any_eq_false]
        intro x hx
        have := List.countP_eq_zero.mp hz x hx
        simpa using this
      simp [hz, hany]

/-- C10: `validateExcelFile` is total over every filesystem state and always
returns a well-formed object: `isValid = false` comes with an error message
and no `sheetCount`, `isValid = true` comes with a `sheetCount` and no
error; no exception escapes (the model's plain return type reflects the
catch-all in the source). -/
theorem C10_validateExcelFile_total_shape (fs : FsFile) :
    ((validateExcelFile fs).isValid = false →
      ((validateExcelFile fs).error).isSome ∧ (validateExcelFile fs).sheetCount = none) ∧
    ((validateExcelFile fs).isValid = true →
      ((validateExcelFile fs).sheetCount).isSome ∧ (validateExcelFile fs).error = none) := by
  cases fs <;> simp only [validateExcelFile] <;> (try split_ifs) <;> simp

/-- Witness for C10 at the concrete input `FsFile.missing`. -/
theorem C10_witness :
    (validateExcelFile FsFile.missing).error.isSome ∧
    (validateExcelFile FsFile.missing).sheetCount = none :=
  (C10_validateExcelFile_total_shape FsFile.missing).1 (by decide)

/-- C5: a non-missing file strictly larger than 10MB is rejected by
`validateExcelFile` with the error `File size exceeds 10MB limit` and is
refused by the multer middleware; a file of at most 10MB never fails the
size check (neither the validation size error nor the multer size error can
be produced for it). -/
theorem C5_upload_size_limit (fs : FsFile) (hex : fs ≠ FsFile.missing) :
    (fsSize fs > maxSize →
      validateExcelFile fs = ⟨false, some "File size exceeds 10MB limit", none⟩ ∧
      ∀ mt ext, (multerCheck mt ext (fsSize fs)).isSome) ∧
    (fsSize fs ≤ maxSize →
      (validateExcelFile fs).error ≠ some "File size exceeds 10MB limit" ∧
      ∀ mt ext, multerCheck mt ext (fsSize fs) ≠ some "File too large. Maximum size is 10MB.") := by
  constructor
  · intro hgt
    constructor
    · cases fs with
      | missing => exact absurd rfl hex
      | unreadable size =>
        simp only [fsSize] at hgt
        simp [validateExcelFile, hgt]
      | workbook size sheets json =>
        simp only [fsSize] at hgt
        simp [validateExcelFile, hgt]
    · intro mt ext
      unfold multerCheck
      split_ifs <;> (try simp_all) <;> omega
  · intro hle
    constructor
    · cases fs with
      | missing => simp [validateExcelFile]
      | unreadable size =>
        simp only [fsSize] at hle
        simp only [validateExcelFile]
        split_ifs with hgt
        · exfalso
          omega
        · simp
      | workbook size sheets json =>
        simp only [fsSize] at hle
        simp only [validateExcelFile]
        split_ifs <;> (try simp_all) <;> omega
    · intro mt ext
      unfold multerCheck
      split_ifs <;> (try simp_all) <;> omega

/-- Witness for C5: a workbook of `maxSize + 1` bytes is rejected with the
size error by both checks, and one of exactly `maxSize` bytes passes the
size check. -/
theorem C5_witness :
    validateExcelFile (FsFile.workbook (maxSize + 1) ["Sheet1"] []) =
      ⟨false, some "File size exceeds 10MB limit", none⟩ ∧
    (multerCheck "application/vnd.ms-excel" ".xls" (maxSize + 1)).isSome = true ∧
    multerCheck "application/vnd.ms-excel" ".xls" maxSize ≠
      some "File too large. Maximum size is 10MB." := by
  have h1 := C5_upload_size_limit (FsFile.workbook (maxSize + 1) ["Sheet1"] []) (by decide)
  have h2 := C5_upload_size_limit (FsFile.workbook maxSize ["Sheet1"] []) (by decide)
  refine ⟨(h1.1 (by decide)).1, ?_, ?_⟩
  · have := (h1.1 (by decide)).2 "application/vnd.ms-excel" ".xls"
    simpa using this
  · have := (h2.2 (by decide)).2 "application/vnd.ms-excel" ".xls"
    simpa using this

theorem jsTrim_of_dropLeadWS_nil (s : String) (h : dropLeadWS s.data = []) :
    jsTrim s = "" := by
  unfold jsTrim
  rw [h]
  rfl

theorem isHexLiteral_shape (l : List Char) (h : isHexLiteral l = true) :
    ∃ x r, l = '0' :: x :: r ∧ (x = 'x' ∨ x = 'X') := by
  cases l with
  | nil => simp [isHexLiteral] at h
  | cons c0 t =>
    cases t with
    | nil => simp [isHexLiteral] at h
    | cons x r =>
      simp only [isHexLiteral, decide_eq_true_eq] at h
      obtain ⟨h0, hx, _⟩ := h
      exact ⟨x, r, by rw [h0], hx⟩

theorem jsNumParse_zero_x (x : Char) (r : List Char) (hx : x = 'x' ∨ x = 'X') :
    ∃ v, jsNumParse ('0' :: x :: r) = some v := by
  rcases hx with rfl | rfl <;>
    simp [jsNumParse, parseUnsigned, spanDigits, parseExpPart]

theorem jsParseFloat_isSome_of_numeric (s : String)
    (hn : jsStringIsNumeric s = true) (ht : jsTrim s ≠ "") :
    ∃ q, jsParseFloat s = some q := by
  unfold jsStringIsNumeric at hn
  simp only at hn
  by_cases h0 : dropLeadWS s.data = []
  · exact absurd (jsTrim_of_dropLeadWS_nil s h0) ht
  · rw [if_neg h0] at hn
    by_cases hh : isHexLiteral (dropLeadWS s.data) = true
    · obtain ⟨x, r, heq, hx⟩ := isHexLiteral_shape _ hh
      obtain ⟨v, hv⟩ := jsNumParse_zero_x x r hx
      refine ⟨v.1, ?_⟩
      unfold jsParseFloat
      rw [heq, hv]
    · rw [if_neg hh] at hn
      unfold jsParseFloat
      cases hp : jsNumParse (dropLeadWS s.data) with
      | none => rw [hp] at hn; simp at hn
      | some v => exact ⟨v.1, rfl⟩

/-- C6: the cell-conversion step types each data cell the way
`parseExcelFile` does — a string passing the numeric test (`!isNaN` and
nonempty after trimming) is stored as its `parseFloat` value and is never
subsequently converted to a date; a remaining string matching a date
pattern and accepted by `Date.parse` is stored as a `Date`; every other
cell, string or not, is stored unchanged. -/
theorem C6_convertCell_typing (s : String) (c : Cell) :
    (jsStringIsNumeric s = true → jsTrim s ≠ "" →
      ∃ q, jsParseFloat s = some q ∧ convertCell (Cell.str s) = Cell.num q) ∧
    (¬ (jsStringIsNumeric s = true ∧ jsTrim s ≠ "") → isDateString s = true →
      ∃ y m d, jsDateParse s = some (y, m, d) ∧
        convertCell (Cell.str s) = Cell.date y m d) ∧
    (¬ (jsStringIsNumeric s = true ∧ jsTrim s ≠ "") → isDateString s = false →
      convertCell (Cell.str s) = Cell.str s) ∧
    ((∀ s2, c ≠ Cell.str s2) → convertCell c = c) := by
  refine ⟨?_, ?_, ?_, ?_⟩
  · intro hn ht
    obtain ⟨q, hq⟩ := jsParseFloat_isSome_of_numeric s hn ht
    refine ⟨q, hq, ?_⟩
    simp only [convertCell]
    rw [if_pos ⟨hn, ht⟩, hq]
  · intro hcond hdate
    have hsome : (jsDateParse s).isSome = true := by
      unfold isDateString at hdate
      exact ((Bool.and_eq_true _ _).mp hdate).2
    obtain ⟨ymd, hymd⟩ := Option.isSome_iff_exists.mp hsome
    refine ⟨ymd.1, ymd.2.1, ymd.2.2, by rw [hymd], ?_⟩
    simp only [convertCell]
    rw [if_neg hcond]
    simp only
    rw [if_pos hdate, hymd]
  · intro hcond hdate
    simp only [convertCell]
    rw [if_neg hcond]
    simp only
    rw [if_neg (by simp [hdate])]
  · intro hns
    cases c with
    | str s2 => exact absurd rfl (hns s2)
    | undef => rfl
    | null => rfl
    | num q => rfl
    | bool b => rfl
    | date y m d => rfl

/-- Witness for C6 at the concrete strings `42`, `1/2/2024`, `abc` and the
non-string cell `true`. -/
theorem C6_witness :
    convertCell (Cell.str "42") = Cell.num 42 ∧
    convertCell (Cell.str "1/2/2024") = Cell.date 2024 1 2 ∧
    convertCell (Cell.str "abc") = Cell.str "abc" ∧
    convertCell (Cell.bool true) = Cell.bool true := by
  obtain ⟨q, hq, hc⟩ := (C6_convertCell_typing "42" Cell.null).1 (by decide) (by decide)
  obtain ⟨y, m, d, hymd, hcd⟩ :=
    (C6_convertCell_typing "1/2/2024" Cell.null).2.1 (by decide) (by decide)
  have habc := (C6_convertCell_typing "abc" Cell.null).2.2.1 (by decide) (by decide)
  have hbool := (C6_convertCell_typing "" (Cell.bool true)).2.2.2
    (fun s2 h => Cell.noConfusion h)
  have hq42 : q = 42 := by
    have h42 : jsParseFloat "42" = some 42 := by decide
    rw [h42] at hq
    exact Option.some_inj.mp hq.symm
  have hymd' : (y, m, d) = ((2024 : Nat), (1 : Nat), (2 : Nat)) := by
    have hd2 : jsDateParse "1/2/2024" = some (2024, 1, 2) := by decide
    rw [hd2] at hymd
    exact Option.some_inj.mp hymd.symm
  refine ⟨?_, ?_, habc, hbool⟩
  · rw [← hq42]
    exact hc
  · have e1 : y = 2024 := congrArg Prod.fst hymd'
    have e2 : m = 1 := congrArg Prod.fst (congrArg Prod.snd hymd')
    have e3 : d = 2 := congrArg Prod.snd (congrArg Prod.snd hymd')
    rw [← e1, ← e2, ← e3]
    exact hcd

/-- Witness for C2 on the concrete one-column store of a single numeric
cell. -/
theorem C2_witness :
    typeCount (analyzeColumn "A" [[("A", Cell.num 1)]]).typeDistribution
        (analyzeColumn "A" [[("A", Cell.num 1)]]).dataType =
      maxTypeCount (analyzeColumn "A" [[("A", Cell.num 1)]]).typeDistribution ∧
    ((analyzeColumn "A" [[("A", Cell.num 1)]]).statistics.isSome ↔
      (columnValues "A" [[("A", Cell.num 1)]]).any isNumCell = true) := by
  have h := C2_columnAnalysis_majority_and_stats ["A"] [[("A", Cell.num 1)]] "A"
    (analyzeColumn "A" [[("A", Cell.num 1)]]) (by simp [analyzeColumns])
  exact ⟨h.2.2.2.2.1, h.2.2.2.2.2⟩

/-- C7: for every non-empty sheet, parsing succeeds and the persisted rows
are exactly the non-header rows with at least one cell that is not null,
undefined or the empty string, in order, each converted to an object keyed
by the cleaned headers; `totalRows` counts exactly those rows (entirely
empty rows are dropped and never counted). -/
theorem C7_parse_rows_exact (size : Nat) (sheets : List String)
    (jsonData : List (List Cell)) (hs : sheets ≠ []) (hj : jsonData ≠ []) :
    ∃ p, parseExcelFile (FsFile.workbook size sheets jsonData) = Except.ok p ∧
      p.totalRows = (jsonData.drop 1).countP rowNonEmpty ∧
      p.rows.length = p.totalRows ∧
      p.rows = ((jsonData.drop 1).filter rowNonEmpty).enum.map
        (fun pr => rowToObject (cleanHeaders (jsonData.headD [])) pr.2 pr.1) := by
  simp only [parseExcelFile]
  rw [if_neg hs, if_neg hj]
  exact ⟨_, rfl, by simp [List.countP_eq_length_filter], rfl, rfl⟩

/-- Witness for C7 on a concrete three-row sheet (header, one kept row, one
all-null row that is dropped). -/
theorem C7_witness :
    ∃ p, parseExcelFile (FsFile.workbook 5 ["S"]
        [[Cell.str "A"], [Cell.str "x"], [Cell.null]]) = Except.ok p ∧
      p.totalRows = 1 ∧ p.rows.length = 1 := by
  obtain ⟨p, hp, h1, h2, h3⟩ := C7_parse_rows_exact 5 ["S"]
    [[Cell.str "A"], [Cell.str "x"], [Cell.null]] (by decide) (by decide)
  refine ⟨p, hp, ?_, ?_⟩
  · rw [h1]
    decide
  · rw [h2, h1]
    decide

theorem chartFold_spec (config : ChartConfig) (rows : List Row)
    (acc : List Cell × List DataPoint) :
    rows.foldl (chartRowStep config) acc =
      (acc.1 ++ rows.filterMap (chartLabel config),
       acc.2 ++ rows.filterMap (chartPoint config)) := by
  induction rows generalizing acc with
  | nil => simp
  | cons r l ih =>
    simp only [List.foldl_cons, List.filterMap_cons]
    rw [ih]
    by_cases hxy : cellDefined (getCell r config.xAxis.column) = true ∧
        cellDefined (getCell r config.yAxis.column) = true
    · cases hz : config.zAxis with
      | none =>
        simp only [chartRowStep, chartLabel, chartPoint, hz, if_pos hxy]
        try simp
      | some z =>
        by_cases hc : z.column ≠ ""
        · by_cases hd : cellDefined (getCell r z.column) = true
          · simp only [chartRowStep, chartLabel, chartPoint, hz, if_pos hxy,
              if_pos hc, if_pos hd]
            try simp
          · simp only [chartRowStep, chartLabel, chartPoint, hz, if_pos hxy,
              if_pos hc, if_neg hd]
            try simp
        · simp only [chartRowStep, chartLabel, chartPoint, hz, if_pos hxy, if_neg hc]
          try simp
    · simp only [chartRowStep, chartLabel, chartPoint, if_neg hxy]
      try cases hz : config.zAxis <;> try simp

theorem find?_append_singleton {α : Type} (p : α → Bool) (l : List α) (x : α)
    (h : l.find? p = none) :
    (l ++ [x]).find? p = if p x then some x else none := by
  induction l with
  | nil =>
    simp only [List.nil_append, List.find?_cons, List.find?_nil]
    cases hpx : p x <;> simp
  | cons a t ih =>
    cases hpa : p a with
    | true => simp [List.find?_cons, hpa] at h
    | false =>
      simp only [List.find?_cons, hpa] at h
      simp only [List.cons_append, List.find?_cons, hpa]
      exact ih h

/-- C3: creating a chart from a completed file succeeds and stores, as the
chart's derived series data, exactly the projection of the configured x/y
(/z) columns over the file's processed rows in order: a label for every row
whose x and y values are defined, and a data point for every such row
(additionally requiring a defined z value when a z-axis column is
configured). -/
theorem C3_chart_data_is_projection (st : Store) (uid newChartId : Nat)
    (title ct dim : String) (fid : Nat) (config : ChartConfig)
    (f : FileRec) (pd : ProcessedData)
    (hf : findFile st fid = some f) (hown : f.uploadedBy = uid)
    (hst : f.status = FileStatus.completed) (hpd : f.processedData = some pd)
    (hx : pd.headers.contains config.xAxis.column = true)
    (hy : pd.headers.contains config.yAxis.column = true)
    (hz : ¬ (dim = "3d" ∧ zAxisColumnMissing config pd.headers = true))
    (hfresh : findChart st newChartId = none) :
    (createChartRoute st uid newChartId title ct dim fid config).2 = 201 ∧
    ∃ ch, findChart (createChartRoute st uid newChartId title ct dim fid config).1
        newChartId = some ch ∧
      ch.chartData.labels = pd.rows.filterMap (chartLabel config) ∧
      (ch.chartData.datasets.map fun ds => ds.data) =
        [pd.rows.filterMap (chartPoint config)] := by
  have hroute : createChartRoute st uid newChartId title ct dim fid config =
      ({ files := saveFile st.files
           (if f.charts.contains newChartId then f
            else { f with charts := f.charts ++ [newChartId] }),
         charts := st.charts ++
           [{ id := newChartId, title := title, chartType := ct,
              dimension := dim, fileId := fid, createdBy := uid,
              config := config,
              chartData := generateChartData pd config ct }] }, 201) := by
    unfold createChartRoute
    rw [hf]
    simp only [hown]
    rw [if_neg (by simp)]
    rw [if_neg (by simp [hst])]
    rw [hpd]
    simp only [hx, hy]
    rw [if_neg (by simp), if_neg (by simp), if_neg hz]
  rw [hroute]
  refine ⟨rfl, ?_⟩
  unfold findChart at hfresh ⊢
  simp only
  rw [find?_append_singleton _ _ _ hfresh]
  rw [if_pos (by simp)]
  refine ⟨_, rfl, ?_, ?_⟩
  · simp only [generateChartData, chartFold_spec]
    simp
  · simp only [generateChartData, chartFold_spec]
    simp

theorem filterMap_length_congr {α β γ : Type} (q : α → Option β) (g : α → Option γ)
    (l : List α) (h : ∀ a ∈ l, (q a).isSome = (g a).isSome) :
    (l.filterMap q).length = (l.filterMap g).length := by
  induction l with
  | nil => rfl
  | cons a t ih =>
    have ha := h a (by simp)
    have ht := fun x hx => h x (List.mem_cons_of_mem _ hx)
    cases hq : q a with
    | none =>
      cases hg : g a with
      | none => simp only [List.filterMap_cons, hq, hg]; exact ih ht
      | some c => rw [hq, hg] at ha; simp at ha
    | some b =>
      cases hg : g a with
      | none => rw [hq, hg] at ha; simp at ha
      | some c =>
        simp only [List.filterMap_cons, hq, hg, List.length_cons]
        rw [ih ht]

/-- C9: for a chart configuration without an effective z-axis column, the
generated labels array and the (single) dataset's data array have the same
length — every retained row contributes exactly one label and one data
point. -/
theorem C9_labels_data_equal_length (pd : ProcessedData) (config : ChartConfig)
    (ct : String) (hz : ∀ z, config.zAxis = some z → z.column = "") :
    ∀ ds ∈ (generateChartData pd config ct).datasets,
      ds.data.length = (generateChartData pd config ct).labels.length := by
  intro ds hds
  simp only [generateChartData, chartFold_spec, List.nil_append] at hds ⊢
  simp only [List.mem_singleton] at hds
  subst hds
  simp only
  apply filterMap_length_congr
  intro row hrow
  unfold chartPoint chartLabel
  by_cases hxy : cellDefined (getCell row config.xAxis.column) = true ∧
      cellDefined (getCell row config.yAxis.column) = true
  · rw [if_pos hxy, if_pos hxy]
    cases hzc : config.zAxis with
    | none => rfl
    | some z =>
      have := hz z hzc
      simp [this]
  · rw [if_neg hxy, if_neg hxy]
    rfl


theorem saveFile_fresh (files : List FileRec) (fx : FileRec)
    (h : files.find? (fun g => g.id = fx.id) = none) :
    saveFile files fx = files ++ [fx] := by
  unfold saveFile
  rw [if_neg ?hn]
  case hn =>
    intro hany
    obtain ⟨g, hg, hp⟩ := List.any_eq_true.mp hany
    have := List.find?_eq_none.mp h g hg
    simp_all

theorem find?_map_replace (files : List FileRec) (i : Nat) (fx : FileRec)
    (hx : fx.id = i)
    (hfind : ((files.find? fun g => g.id = i)).isSome = true) :
    ((files.map fun g => if g.id = fx.id then fx else g).find? fun g => g.id = i) =
      some fx := by
  induction files with
  | nil => simp at hfind
  | cons a t ih =>
    by_cases ha : a.id = i
    · simp only [List.map_cons]
      rw [if_pos (by rw [hx]; exact ha)]
      simp [List.find?_cons, hx]
    · simp only [List.map_cons]
      rw [if_neg (by rw [hx]; exact ha)]
      simp only [List.find?_cons] at hfind ⊢
      have hpa : (decide (a.id = i)) = false := by simp [ha]
      rw [hpa] at hfind
      simp only [hpa]
      exact ih hfind

theorem findFile_after_double_save (files : List FileRec) (i : Nat) (fd fd1 : FileRec)
    (hfresh : (files.find? fun g => g.id = i) = none)
    (hfd : fd.id = i) (hfd1 : fd1.id = i) :
    ((saveFile (saveFile files fd) fd1).find? fun g => g.id = i) = some fd1 := by
  have h1 : saveFile files fd = files ++ [fd] :=
    saveFile_fresh files fd (by rw [hfd]; exact hfresh)
  rw [h1]
  have hany : (files ++ [fd]).any (fun g => g.id = fd1.id) = true := by
    rw [List.any_eq_true]
    exact ⟨fd, by simp, by simp [hfd, hfd1]⟩
  unfold saveFile
  rw [if_pos hany]
  apply find?_map_replace _ _ _ hfd1
  rw [find?_append_singleton _ _ _ hfresh]
  simp [hfd]

theorem findFile_after_double_save_existing (files : List FileRec) (i : Nat)
    (f f1 f2 : FileRec) (hf : (files.find? fun g => g.id = i) = some f)
    (h1 : f1.id = i) (h2 : f2.id = i) :
    ((saveFile (saveFile files f1) f2).find? fun g => g.id = i) = some f2 := by
  have hmem : f ∈ files := List.mem_of_find?_eq_some hf
  have hpf : f.id = i := by simpa using List.find?_some hf
  have hany1 : files.any (fun g => g.id = f1.id) = true := by
    rw [List.any_eq_true]
    exact ⟨f, hmem, by simp [hpf, h1]⟩
  have e1 : saveFile files f1 = files.map fun g => if g.id = f1.id then f1 else g := by
    unfold saveFile
    rw [if_pos hany1]
  rw [e1]
  have hfind1 : ((files.map fun g => if g.id = f1.id then f1 else g).find?
      fun g => g.id = i) = some f1 :=
    find?_map_replace files i f1 h1 (by rw [hf]; rfl)
  have hany2 : (files.map fun g => if g.id = f1.id then f1 else g).any
      (fun g => g.id = f2.id) = true := by
    rw [List.any_eq_true]
    exact ⟨f1, List.mem_of_find?_eq_some hfind1, by simp [h1, h2]⟩
  unfold saveFile
  rw [if_pos hany2]
  exact find?_map_replace _ i f2 h2 (by rw [hfind1]; rfl)

theorem getFileRoute_owner (st2 : Store) (uid : Nat) (role : String) (i : Nat)
    (g : FileRec) (hg : findFile st2 i = some g) (hown : g.uploadedBy = uid) :
    getFileRoute st2 uid role i = (200, some g) := by
  unfold getFileRoute
  rw [hg]
  simp [hown]

/-- C4: when parsing an uploaded file fails, the stored file ends with
status `failed` and the response is HTTP 422; reprocessing is permitted
exactly when the status is `failed` — any other status is answered 400 with
the store unchanged, while a failed file is reparsed and ends `completed`
(200) on success or `failed` (422) on another parse error. -/
theorem C4_upload_failure_and_reprocess :
    (∀ st uid newId content size desc tags msg,
      uploadValidationOk desc tags = true →
      (validateExcelFile content).isValid = true →
      parseExcelFile content = Except.error msg →
      findFile st newId = none →
      (uploadRoute st uid newId content size desc tags).2.code = 422 ∧
      ∃ g, findFile (uploadRoute st uid newId content size desc tags).1 newId = some g ∧
        g.status = FileStatus.failed) ∧
    (∀ st uid fid f, findFile st fid = some f → f.uploadedBy = uid →
      (f.status ≠ FileStatus.failed → reprocessRoute st uid fid = (st, 400)) ∧
      (f.status = FileStatus.failed →
        (∀ p, parseExcelFile f.content = Except.ok p →
          (reprocessRoute st uid fid).2 = 200 ∧
          ∃ g, findFile (reprocessRoute st uid fid).1 fid = some g ∧
            g.status = FileStatus.completed) ∧
        (∀ msg, parseExcelFile f.content = Except.error msg →
          (reprocessRoute st uid fid).2 = 422 ∧
          ∃ g, findFile (reprocessRoute st uid fid).1 fid = some g ∧
            g.status = FileStatus.failed))) := by
  constructor
  · intro st uid newId content size desc tags msg hv hval hperr hfresh
    unfold uploadRoute
    rw [if_neg (by simp [hv]), if_neg (by simp [hval]), hperr]
    refine ⟨rfl, ?_⟩
    unfold findFile at hfresh ⊢
    exact ⟨_, findFile_after_double_save st.files newId _ _ hfresh rfl rfl, rfl⟩
  · intro st uid fid f hf hown
    constructor
    · intro hns
      unfold reprocessRoute
      rw [hf]
      simp only
      rw [if_neg (by simp [hown]), if_pos hns]
    · intro hfail
      constructor
      · intro p hp
        unfold reprocessRoute
        rw [hf]
        simp only
        rw [if_neg (by simp [hown]), if_neg (by simp [hfail]), hp]
        refine ⟨rfl, ?_⟩
        unfold findFile at hf ⊢
        exact ⟨_, findFile_after_double_save_existing st.files fid f _ _ hf
          (by simpa using List.find?_some hf) (by simpa using List.find?_some hf), rfl⟩
      · intro msg hmsg
        unfold reprocessRoute
        rw [hf]
        simp only
        rw [if_neg (by simp [hown]), if_neg (by simp [hfail]), hmsg]
        refine ⟨rfl, ?_⟩
        unfold findFile at hf ⊢
        exact ⟨_, findFile_after_double_save_existing st.files fid f _ _ hf
          (by simpa using List.find?_some hf) (by simpa using List.find?_some hf), rfl⟩

/-- C8: after a successful upload (validation passes, parsing succeeds, the
new id is fresh), fetching the file returns 200 with a stored document
whose headers, totalRows, totalColumns, sheetNames, description and tags
are exactly the ones the upload response reported. -/
theorem C8_upload_then_fetch (st : Store) (uid newId : Nat) (content : FsFile)
    (size : Nat) (desc tags : String) (parsed : ParsedFile)
    (hv : uploadValidationOk desc tags = true)
    (hval : (validateExcelFile content).isValid = true)
    (hp : parseExcelFile content = Except.ok parsed)
    (hfresh : findFile st newId = none) :
    (uploadRoute st uid newId content size desc tags).2.code = 201 ∧
    ∃ g, getFileRoute (uploadRoute st uid newId content size desc tags).1
        uid "user" newId = (200, some g) ∧
      (g.processedData.map fun pd => pd.headers) =
        (uploadRoute st uid newId content size desc tags).2.headers ∧
      (g.processedData.map fun pd => pd.totalRows) =
        (uploadRoute st uid newId content size desc tags).2.totalRows ∧
      (g.processedData.map fun pd => pd.totalColumns) =
        (uploadRoute st uid newId content size desc tags).2.totalColumns ∧
      (g.metadata.map fun md => md.sheetNames) =
        (uploadRoute st uid newId content size desc tags).2.sheetNames ∧
      some g.description = (uploadRoute st uid newId content size desc tags).2.description ∧
      some g.tags = (uploadRoute st uid newId content size desc tags).2.tags := by
  have hroute : uploadRoute st uid newId content size desc tags =
      (⟨saveFile (saveFile st.files
          ⟨newId, uid, content, size, FileStatus.processing, jsTrim desc,
            splitTags tags, none, none, [], false⟩)
          ⟨newId, uid, content, size, FileStatus.completed, jsTrim desc,
            splitTags tags,
            some ⟨parsed.headers, parsed.rows, parsed.totalRows, parsed.totalColumns⟩,
            some parsed.metadata, [], false⟩, st.charts⟩,
       ⟨201, some newId, some parsed.headers, some parsed.totalRows,
        some parsed.totalColumns, some parsed.metadata.sheetNames,
        some (jsTrim desc), some (splitTags tags)⟩) := by
    unfold uploadRoute
    rw [if_neg (by simp [hv]), if_neg (by simp [hval]), hp]
  rw [hroute]
  refine ⟨rfl, ?_⟩
  have hfind : findFile
      (⟨saveFile (saveFile st.files
          ⟨newId, uid, content, size, FileStatus.processing, jsTrim desc,
            splitTags tags, none, none, [], false⟩)
          ⟨newId, uid, content, size, FileStatus.completed, jsTrim desc,
            splitTags tags,
            some ⟨parsed.headers, parsed.rows, parsed.totalRows, parsed.totalColumns⟩,
            some parsed.metadata, [], false⟩, st.charts⟩ : Store)
      newId = some
      ⟨newId, uid, content, size, FileStatus.completed, jsTrim desc,
        splitTags tags,
        some ⟨parsed.headers, parsed.rows, parsed.totalRows, parsed.totalColumns⟩,
        some parsed.metadata, [], false⟩ := by
    unfold findFile at hfresh ⊢
    exact findFile_after_double_save st.files newId _ _ hfresh rfl rfl
  exact ⟨_, getFileRoute_owner _ uid "user" newId _ hfind rfl, rfl, rfl, rfl, rfl, rfl, rfl⟩

/-- Witness for C3 on the concrete store: chart creation succeeds and the
stored series is the projection of the two sample rows (the null-x row is
dropped). -/
theorem C3_witness :
    (createChartRoute sampleStore 7 5 "t" "bar" "2d" 1 sampleCfg).2 = 201 ∧
    ((findChart (createChartRoute sampleStore 7 5 "t" "bar" "2d" 1 sampleCfg).1 5).map
      fun ch => ch.chartData.labels) = some [Cell.num 1] ∧
    ((findChart (createChartRoute sampleStore 7 5 "t" "bar" "2d" 1 sampleCfg).1 5).map
      fun ch => ch.chartData.datasets.map fun ds => ds.data) =
      some [[DataPoint.d2 (Cell.num 2)]] := by
  obtain ⟨hcode, ch, hch, hlab, hdata⟩ :=
    C3_chart_data_is_projection sampleStore 7 5 "t" "bar" "2d" 1 sampleCfg
      sampleCompletedFile samplePD (by decide) (by decide) (by decide) (by decide)
      (by decide) (by decide) (by decide) (by decide)
  refine ⟨hcode, ?_, ?_⟩
  · rw [hch]
    simp only [Option.map_some']
    rw [hlab]
    decide
  · rw [hch]
    simp only [Option.map_some']
    rw [hdata]
    decide

/-- Witness for C9 on the concrete sample configuration: the single dataset
has as many data points as there are labels. -/
theorem C9_witness :
    ((generateChartData samplePD sampleCfg "bar").datasets.map fun ds => ds.data.length) =
      [(generateChartData samplePD sampleCfg "bar").labels.length] := by
  have h := C9_labels_data_equal_length samplePD sampleCfg "bar"
    (fun z hz => by simp [sampleCfg] at hz)
  cases he : (generateChartData samplePD sampleCfg "bar").datasets with
  | nil => simp [generateChartData] at he
  | cons d t =>
    cases t with
    | nil =>
      have hm : d ∈ (generateChartData samplePD sampleCfg "bar").datasets := by
        rw [he]
        simp
      simp [he, h d hm]
    | cons d2 t2 => simp [generateChartData] at he

/-- Witness for C4 on concrete stores: a failing upload answers 422 with a
failed file; reprocess of a completed file is a 400 no-op; reprocess of a
failed file ends completed (200) or failed (422) according to the parse. -/
theorem C4_witness :
    (uploadRoute ⟨[], []⟩ 7 1 sampleEmptySheet 5 "" "").2.code = 422 ∧
    ((findFile (uploadRoute ⟨[], []⟩ 7 1 sampleEmptySheet 5 "" "").1 1).map
      fun g => g.status) = some FileStatus.failed ∧
    reprocessRoute ⟨[sampleCompletedFile], []⟩ 7 1 = (⟨[sampleCompletedFile], []⟩, 400) ∧
    (reprocessRoute ⟨[sampleFailedFileGood], []⟩ 7 2).2 = 200 ∧
    ((findFile (reprocessRoute ⟨[sampleFailedFileGood], []⟩ 7 2).1 2).map
      fun g => g.status) = some FileStatus.completed ∧
    (reprocessRoute ⟨[sampleFailedFileBad], []⟩ 7 3).2 = 422 ∧
    ((findFile (reprocessRoute ⟨[sampleFailedFileBad], []⟩ 7 3).1 3).map
      fun g => g.status) = some FileStatus.failed := by
  have H := C4_upload_failure_and_reprocess
  have h1 := H.1 ⟨[], []⟩ 7 1 sampleEmptySheet 5 "" ""
    "Failed to parse Excel file: The Excel sheet is empty"
    (by decide) (by decide) (by decide) (by decide)
  have h2 := (H.2 ⟨[sampleCompletedFile], []⟩ 7 1 sampleCompletedFile
    (by decide) (by decide)).1 (by decide)
  have hOk : (match parseExcelFile sampleGoodWB with
      | Except.ok _ => true
      | Except.error _ => false) = true := by decide
  obtain ⟨p, hp⟩ : ∃ p, parseExcelFile sampleGoodWB = Except.ok p := by
    cases hq : parseExcelFile sampleGoodWB with
    | ok p => exact ⟨p, rfl⟩
    | error m => rw [hq] at hOk; simp at hOk
  have h3 := ((H.2 ⟨[sampleFailedFileGood], []⟩ 7 2 sampleFailedFileGood
    (by decide) (by decide)).2 (by decide)).1 p hp
  have h4 := ((H.2 ⟨[sampleFailedFileBad], []⟩ 7 3 sampleFailedFileBad
    (by decide) (by decide)).2 (by decide)).2
    "Failed to parse Excel file: The Excel sheet is empty" (by decide)
  obtain ⟨g1, hg1, hs1⟩ := h1.2
  obtain ⟨g3, hg3, hs3⟩ := h3.2
  obtain ⟨g4, hg4, hs4⟩ := h4.2
  refine ⟨h1.1, ?_, h2, h3.1, ?_, h4.1, ?_⟩
  · rw [hg1]
    simp only [Option.map_some']
    rw [hs1]
  · rw [hg3]
    simp only [Option.map_some']
    rw [hs3]
  · rw [hg4]
    simp only [Option.map_some']
    rw [hs4]

/-- Witness for C8 on a concrete successful upload: the fetched document's
description and headers agree with the upload response. -/
theorem C8_witness :
    (uploadRoute ⟨[], []⟩ 7 1 sampleGoodWB 5 "d" "t1,t2").2.code = 201 ∧
    ((getFileRoute (uploadRoute ⟨[], []⟩ 7 1 sampleGoodWB 5 "d" "t1,t2").1 7 "user" 1).2.map
      fun g => some g.description) =
      some ((uploadRoute ⟨[], []⟩ 7 1 sampleGoodWB 5 "d" "t1,t2").2.description) ∧
    ((getFileRoute (uploadRoute ⟨[], []⟩ 7 1 sampleGoodWB 5 "d" "t1,t2").1 7 "user" 1).2.map
      fun g => g.processedData.map fun pd => pd.headers) =
      some ((uploadRoute ⟨[], []⟩ 7 1 sampleGoodWB 5 "d" "t1,t2").2.headers) := by
  have hOk : (match parseExcelFile sampleGoodWB with
      | Except.ok _ => true
      | Except.error _ => false) = true := by decide
  obtain ⟨p, hp⟩ : ∃ p, parseExcelFile sampleGoodWB = Except.ok p := by
    cases hq : parseExcelFile sampleGoodWB with
    | ok p => exact ⟨p, rfl⟩
    | error m => rw [hq] at hOk; simp at hOk
  obtain ⟨hcode, g, hget, hh, htr, htc, hsn, hd, htg⟩ :=
    C8_upload_then_fetch ⟨[], []⟩ 7 1 sampleGoodWB 5 "d" "t1,t2" p
      (by decide) (by decide) hp (by decide)
  refine ⟨hcode, ?_, ?_⟩
  · rw [hget]
    simp only [Option.map_some']
    rw [hd]
  · rw [hget]
    simp only [Option.map_some']
    rw [hh]

/-- C1 counterexample: the user-facing file-delete route succeeds (200) and
removes the file record, yet a chart whose `fileId` references the deleted
file still remains in the store — no cascading chart deletion happens
there. -/
theorem C1_counterexample :
    (deleteFileRoute c1Store 7 "user" 1).2 = 200 ∧
    findFile (deleteFileRoute c1Store 7 "user" 1).1 1 = none ∧
    ((deleteFileRoute c1Store 7 "user" 1).1.charts.filter fun c => c.fileId = 1) ≠ [] := by
  decide

/-- C1 (amended): the user file-delete route removes the file record and
answers 200 but leaves the chart collection untouched; cascading chart
deletion is performed only by the admin file-delete route, after which no
chart referencing the deleted file remains. -/
theorem C1_delete_cascade_behavior (st : Store) (uid : Nat) (role : String)
    (fid : Nat) (f : FileRec) (hf : findFile st fid = some f)
    (hown : f.uploadedBy = uid) :
    ((deleteFileRoute st uid role fid).2 = 200 ∧
      findFile (deleteFileRoute st uid role fid).1 fid = none ∧
      (deleteFileRoute st uid role fid).1.charts = st.charts) ∧
    ((adminDeleteFileRoute st fid).2 = 200 ∧
      findFile (adminDeleteFileRoute st fid).1 fid = none ∧
      ∀ c ∈ (adminDeleteFileRoute st fid).1.charts, c.fileId ≠ fid) := by
  constructor
  · unfold deleteFileRoute
    rw [hf]
    simp only
    rw [if_neg (by simp [hown])]
    refine ⟨rfl, ?_, rfl⟩
    unfold findFile
    simp only
    rw [List.find?_eq_none]
    intro x hx
    have := (List.mem_filter.mp hx).2
    simpa using this
  · unfold adminDeleteFileRoute
    rw [hf]
    simp only
    refine ⟨by trivial, ?_, ?_⟩
    · unfold findFile
      simp only
      rw [List.find?_eq_none]
      intro x hx
      have := (List.mem_filter.mp hx).2
      simpa using this
    · intro c hc
      have := (List.mem_filter.mp hc).2
      simpa using this

/-- Witness for the amended C1 on the concrete store. -/
theorem C1_witness :
    ((deleteFileRoute c1Store 7 "user" 1).2 = 200 ∧
      findFile (deleteFileRoute c1Store 7 "user" 1).1 1 = none ∧
      (deleteFileRoute c1Store 7 "user" 1).1.charts = c1Store.charts) ∧
    (adminDeleteFileRoute c1Store 1).2 = 200 ∧
    findFile (adminDeleteFileRoute c1Store 1).1 1 = none := by
  have h := C1_delete_cascade_behavior c1Store 7 "user" 1 sampleCompletedFile
    (by decide) (by decide)
  exact ⟨h.1, h.2.1, h.2.2.1⟩
